import Mathlib

/-!
Verification development for the CampusTalentInsight data pipeline
(src/src/core/data_processor.py and src/src/utils/report_generator.py).

Modelling conventions:
- A pandas cell that may be NaN/None is an `Option String`; `none` models a
  missing value.  `pd.Series.str.contains(pat, na=False)` is `optContains`.
- Python substring containment `pat in s` is `strContains s pat`, computed on
  the character lists of the strings.
- `round(x, 1)` on a percentage is modelled exactly in integer arithmetic:
  an Entry stores `percentageTenths`, the value of `round(x, 1) * 10` as a
  natural number, computed with round-half-to-even on the exact rational
  count/total*100 (CPython rounds the nearest double of that rational; the
  two agree on all values at stake here, exact halves included, since those
  are exactly representable).
- Python exceptions escaping a function are modelled by `Option`/`none`.
-/

/-- Boolean test that the list `p` is an initial segment of `l`. -/
def dataStarts (p l : List Char) : Bool :=
  match p, l with
  | [], _ => true
  | _ :: _, [] => false
  | a :: p1, b :: l1 => a == b && dataStarts p1 l1

/-- Boolean test that the list `p` occurs contiguously inside `l`. -/
def dataSub (p : List Char) : List Char → Bool
  | [] => dataStarts p []
  | b :: l1 => dataStarts p (b :: l1) || dataSub p l1

/-- Python's containment test `pat in s` on strings. -/
def strContains (s pat : String) : Bool := dataSub pat.data s.data

/-- Pandas `Series.str.contains(pat, na=False)` on a single cell. -/
def optContains (o : Option String) (pat : String) : Bool :=
  match o with
  | none => false
  | some s => strContains s pat

/-- The segment of `s` before the first occurrence of `c`
(all of `s` when `c` does not occur): Python's `s.split(c)[0]`. -/
def beforeFirst (c : Char) (s : String) : String :=
  String.mk (s.data.takeWhile (fun d => d ≠ c))

/-- Numeric value of a list of decimal digit characters. -/
def digitsToNat (l : List Char) : Nat :=
  l.foldl (fun a c => a * 10 + (c.toNat - '0'.toNat)) 0

/-- Model of CPython `int(s)` on a string, as used on the year fragments
here: optional surrounding whitespace, an optional sign, then a nonempty
run of decimal digits; anything else raises ValueError, modelled as `none`. -/
def pyInt (s : String) : Option Int :=
  let t := ((s.data.dropWhile Char.isWhitespace).reverse.dropWhile
      Char.isWhitespace).reverse
  match t with
  | [] => none
  | '-' :: ds =>
      if ds ≠ [] ∧ ds.all Char.isDigit then some (-(digitsToNat ds : Int))
      else none
  | '+' :: ds =>
      if ds ≠ [] ∧ ds.all Char.isDigit then some ((digitsToNat ds : Int))
      else none
  | ds =>
      if ds.all Char.isDigit then some ((digitsToNat ds : Int)) else none

namespace DataProcessor

/-- The ordered domestic category list of `DataProcessor.classify_institution`. -/
def domesticCategories : List String :=
  ["C9联盟", "985", "211", "轨道交通合作院校", "优势学科院校",
   "湖南省知名高校", "创新型大学", "其他签字增补院校"]

/-- The `for category in categories: if category in tag: return category`
loop of `classify_institution`, with its `return "其他"` fallthrough. -/
def classifyLoop (institution_category : String) : List String → String
  | [] => "其他"
  | c :: rest =>
      if strContains institution_category c then c
      else classifyLoop institution_category rest

/-- Source embedding of `DataProcessor.classify_institution`.  The argument
is `str(row.get("最高学历毕业院校类别", ""))`; a NaN cell stringifies to
"nan", which contains no marker and therefore classifies exactly like "". -/
def classify_institution (institution_category : String) : String :=
  if strContains institution_category "海外院校" then
    if strContains institution_category "QS1-50" then "QS1-50"
    else if strContains institution_category "QS100" then "QS100"
    else "其他海外院校"
  else classifyLoop institution_category domesticCategories

/-- Source embedding of `DataProcessor.calculate_generation`.  `none` input
models a NaN cell (`pd.isna`); a parse failure of the year fragment is the
caught ValueError, yielding `none`. -/
def calculate_generation (birth_date : Option String) : Option String :=
  match birth_date with
  | none => none
  | some s =>
      if s = "" then none
      else
        let birth_str := s
        let yearStr :=
          if birth_str.data.contains '-' then beforeFirst '-' birth_str
          else if birth_str.data.contains '/' then beforeFirst '/' birth_str
          else String.mk (birth_str.data.take 4)
        match pyInt yearStr with
        | none => none
        | some year =>
            if year ≥ 2005 then some "05后"
            else if year ≥ 2000 then some "00后"
            else if year ≥ 1995 then some "95后"
            else if year ≥ 1990 then some "90后"
            else none

/-- The province alias table of `DataProcessor.extract_province`, in the
source's insertion order. -/
def province_map : List (String × String) :=
  [("湖南长沙", "湖南"), ("湖南", "湖南"), ("北京", "北京"), ("上海", "上海"),
   ("广东", "广东"), ("江苏", "江苏"), ("浙江", "浙江"), ("山东", "山东"),
   ("河南", "河南"), ("四川", "四川"), ("湖北", "湖北"), ("河北", "河北"),
   ("安徽", "安徽"), ("福建", "福建"), ("江西", "江西"), ("辽宁", "辽宁"),
   ("陕西", "陕西"), ("山西", "山西"), ("重庆", "重庆"), ("天津", "天津"),
   ("云南", "云南"), ("贵州", "贵州"), ("广西", "广西"), ("海南", "海南"),
   ("甘肃", "甘肃"), ("青海", "青海"), ("宁夏", "宁夏"), ("新疆", "新疆"),
   ("西藏", "西藏"), ("内蒙古", "内蒙古"), ("黑龙江", "黑龙江"),
   ("吉林", "吉林"), ("未知地区", "其他")]

/-- Source embedding of `DataProcessor.extract_province`. -/
def extract_province (location : Option String) : String :=
  match location with
  | none => "未知"
  | some s =>
      if s = "" then "未知"
      else
        let location_str := s
        match province_map.lookup location_str with
        | some p => p
        | none =>
            if location_str.data.contains '-' then
              let province_part := beforeFirst '-' location_str
              (province_map.lookup province_part).getD province_part
            else
              match province_map.find?
                  (fun kv => strContains location_str kv.1) with
              | some kv => kv.2
              | none => location_str

end DataProcessor

/-- One roster row (the required Excel columns of `DataProcessor`).
Field names translate the Chinese column names: seq 序号, name 姓名,
gender 性别, age 年龄, birthDate 出生日期, politicalStatus 政治面貌,
origin 籍贯, hireStatus 应聘状态, position 应聘职位, education 最高学历,
major 最高学历专业, majorType 专业类型, school 最高学历毕业院校,
schoolCategory 最高学历毕业院校类别.  Every cell may be NaN. -/
structure Record where
  seq : Option String
  name : Option String
  gender : Option String
  age : Option String
  birthDate : Option String
  politicalStatus : Option String
  origin : Option String
  hireStatus : Option String
  position : Option String
  education : Option String
  major : Option String
  majorType : Option String
  school : Option String
  schoolCategory : Option String
deriving DecidableEq, Repr

/-- A row of the enhanced frame: the original row plus the four columns
added by `DataProcessor.enhance_data` (是否为海外院校,
最高学历毕业院校类别-分类1, 籍贯-省份, 出生年代). -/
structure Enriched where
  base : Record
  isOverseas : String
  institutionTier : String
  originProvince : String
  generation : Option String
deriving DecidableEq, Repr

namespace DataProcessor

/-- Source embedding of `DataProcessor.enhance_data`: `df.copy()` plus the
four derived columns.  `row.get(col, "")` on a NaN cell stringifies to
"nan", which contains none of the markers, so it behaves exactly like
the "" default used here. -/
def enhance_data (df : List Record) : List Enriched :=
  df.map fun r =>
    { base := r
      isOverseas :=
        if strContains (r.schoolCategory.getD "") "海外院校" then "是" else "否"
      institutionTier := classify_institution (r.schoolCategory.getD "")
      originProvince := extract_province r.origin
      generation := calculate_generation r.birthDate }

end DataProcessor

/-- One step of a value count: bump the tally of `v` in the association
list `acc`, appending a fresh key at the end on first sight. -/
def addCount : List (String × Nat) → String → List (String × Nat)
  | [], v => [(v, 1)]
  | (k, n) :: rest, v =>
      if k = v then (k, n + 1) :: rest else (k, n) :: addCount rest v

/-- Occurrence counts of a list of strings, keyed in first-occurrence
order. -/
def tally (xs : List String) : List (String × Nat) := xs.foldl addCount []

/-- Insert an entry into a count-descending list, before the first entry
of strictly smaller count (so equal counts keep their existing order). -/
def insertByCount (x : String × Nat) : List (String × Nat) → List (String × Nat)
  | [] => [x]
  | y :: ys => if x.2 ≥ y.2 then x :: y :: ys else y :: insertByCount x ys

/-- Stable sort by descending count. -/
def sortByCountDesc : List (String × Nat) → List (String × Nat)
  | [] => []
  | x :: xs => insertByCount x (sortByCountDesc xs)

/-- Model of `pd.Series.value_counts().to_dict()` over one column:
occurrence counts of the non-null cells, in descending count order
(value_counts drops NaN, so null cells contribute nothing). -/
def valueCounts (vals : List (Option String)) : List (String × Nat) :=
  sortByCountDesc (tally (vals.filterMap id))

/-- The exact integer-tenths value of CPython
`round(num / den * 100, 1) * 10` where `num / den * 100 * 10 = num * 1000 / den`:
rounding half to even on the exact rational. -/
def pyRound1tenths (num den : Nat) : Nat :=
  let q := num / den
  let r := num % den
  if 2 * r < den then q
  else if den < 2 * r then q + 1
  else if q % 2 = 0 then q else q + 1

/-- One distribution entry, `{"name": k, "count": v, "percentage": ...}`;
the percentage is stored exactly, scaled by ten (66.7 is 667). -/
structure Entry where
  name : String
  count : Nat
  percentageTenths : Nat
deriving DecidableEq, Repr

/-- The per-dimension list comprehension of `generate_statistics`:
entries from `value_counts`, with `percentage = round(v / total * 100, 1)`.
The comprehension's `if k is not None` never bites because value_counts
already dropped the nulls. -/
def mkDistribution (total : Nat) (vals : List (Option String)) : List Entry :=
  (valueCounts vals).map fun kv =>
    { name := kv.1, count := kv.2,
      percentageTenths := pyRound1tenths (kv.2 * 1000) total }

/-- The statistics dictionary produced by `DataProcessor.generate_statistics`,
with one field per key. -/
structure Stats where
  total_count : Nat
  bilateral_count : Nat
  trilateral_count : Nat
  political_status : List Entry
  gender : List Entry
  age_distribution : List Entry
  education : List Entry
  institution_category : List Entry
  major_type : List Entry
  province_distribution : List Entry
  special_institutions : List (String × Int)
deriving DecidableEq, Repr

namespace DataProcessor

/-- The `special_schools` dict of `_calculate_special_institutions`
(identical display and lookup names), in insertion order. -/
def specialSchools : List String :=
  ["清华大学", "北京大学", "同济大学", "中南大学", "北京交通大学",
   "西南交通大学", "兰州交通大学", "大连交通大学", "华东交通大学"]

/-- Source embedding of `DataProcessor._calculate_special_institutions`.
Counts are integers because the derived C9 entry subtracts and can go
negative.  The result models the Python dict in insertion order: the nine
schools, then the derived "C9联盟" entry. -/
def calculate_special_institutions (df : List Enriched) : List (String × Int) :=
  let result := specialSchools.map fun school_name =>
    (school_name,
      ((df.filter (fun r => r.base.school == some school_name)).length : Int))
  let c9_total : Int :=
    ((df.filter (fun r => r.institutionTier == "C9联盟")).length : Int)
  let tsinghua := (result.lookup "清华大学").getD 0
  let peking := (result.lookup "北京大学").getD 0
  result ++ [("C9联盟", c9_total - tsinghua - peking)]

/-- Source embedding of `DataProcessor.generate_statistics`.  The
bilateral/trilateral counts are the lengths of the
`df["应聘状态"].str.contains(..., na=False)` filters; each dimension is a
`value_counts` distribution over its column. -/
def generate_statistics (df : List Enriched) : Stats :=
  let total_count := df.length
  { total_count := total_count
    bilateral_count :=
      (df.filter (fun r => optContains r.base.hireStatus "两方")).length
    trilateral_count :=
      (df.filter (fun r => optContains r.base.hireStatus "三方")).length
    political_status :=
      mkDistribution total_count (df.map (fun r => r.base.politicalStatus))
    gender := mkDistribution total_count (df.map (fun r => r.base.gender))
    age_distribution :=
      mkDistribution total_count (df.map (fun r => r.generation))
    education := mkDistribution total_count (df.map (fun r => r.base.education))
    institution_category :=
      mkDistribution total_count (df.map (fun r => some r.institutionTier))
    major_type := mkDistribution total_count (df.map (fun r => r.base.majorType))
    province_distribution :=
      mkDistribution total_count (df.map (fun r => some r.originProvince))
    special_institutions := calculate_special_institutions df }

end DataProcessor

/-- A row with every cell missing, as a base for concrete examples. -/
def blankRecord : Record :=
  { seq := none, name := none, gender := none, age := none, birthDate := none,
    politicalStatus := none, origin := none, hireStatus := none,
    position := none, education := none, major := none, majorType := none,
    school := none, schoolCategory := none }

/-- The three-record roster of the end-to-end scenario: genders 男/女/男,
political statuses 中共党员/共青团员/群众, agreement types
已签约(两方)/已签约(两方)/已签约(三方). -/
def scenarioRoster : List Record :=
  [{ blankRecord with
      gender := some "男"
      politicalStatus := some "中共党员"
      hireStatus := some "已签约(两方)" },
   { blankRecord with
      gender := some "女"
      politicalStatus := some "共青团员"
      hireStatus := some "已签约(两方)" },
   { blankRecord with
      gender := some "男"
      politicalStatus := some "群众"
      hireStatus := some "已签约(三方)" }]

/-- A signee whose school name is 清华大学 but whose raw category tag is
overseas-marked, so the derived tier is an overseas tier, not C9联盟. -/
def tsinghuaOverseasRecord : Record :=
  { blankRecord with
      school := some "清华大学"
      schoolCategory := some "海外院校,C9联盟" }

/-- A one-record roster whose hire-agreement string contains both the
bilateral and the trilateral marker. -/
def bothMarkersRoster : List Record :=
  [{ blankRecord with hireStatus := some "已签约(两方、三方)" }]

/-- A one-record roster whose hire-agreement string contains neither
marker. -/
def neitherMarkerRoster : List Record :=
  [{ blankRecord with hireStatus := some "未签约" }]

namespace ReportGenerator

/-- Source embedding of `ReportGenerator.process_chart_image`: add the
data-URL marker unless the caller already supplied it. -/
def process_chart_image (image_data : String) : String :=
  if dataStarts "data:image/png;base64,".data image_data.data then image_data
  else "data:image/png;base64," ++ image_data

/-- The Python f-string rendering of a one-decimal percentage float, taken
from its exact tenths value: 667 prints as "66.7". -/
def pctStr (tenths : Nat) : String :=
  toString (tenths / 10) ++ "." ++ toString (tenths % 10)

/-- The `if key in processed_images: report += image markdown` step. -/
def addImage (report : String) (imgs : List (String × String))
    (key caption : String) : String :=
  match imgs.lookup key with
  | some url => report ++ "![" ++ caption ++ "](" ++ url ++ ")\n\n"
  | none => report

/-- One clause of the 重点院校 sentence: append the school only when its
tally is positive (`special_data.get(school, 0) > 0`). -/
def addSchoolClause (special_data : List (String × Int)) (report : String)
    (school : String) (label : String) : String :=
  if 0 < (special_data.lookup school).getD 0 then
    report ++ label ++ toString ((special_data.lookup school).getD 0) ++ "人、"
  else report

/-- Section "### 1. 政治面貌分布" of the report: unguarded positional
indexing into the political-status distribution at ranks 0, 1, 2. -/
def politicalSection (report : String) (statistics : Stats)
    (processed_images : List (String × String)) : Option String := do
  let report := report ++ "### 1. 政治面貌分布\n\n"
  let political_data := statistics.political_status
  let pol0 ← political_data.get? 0
  let pol1 ← political_data.get? 1
  let pol2 ← political_data.get? 2
  let political_text :=
    "2025届校园招聘引进人员中，共青团员" ++ toString pol0.count ++
    "人，占比" ++ pctStr pol0.percentageTenths ++ "%；中国共产党员" ++
    toString pol1.count ++ "人，占比" ++ pctStr pol1.percentageTenths ++
    "%；群众" ++ toString pol2.count ++ "人，占比" ++
    pctStr pol2.percentageTenths ++ "%。\n\n"
  let report := report ++ political_text
  return addImage report processed_images "political_status" "政治面貌分布图"

/-- Section "### 2. 性别分布" of the report: unguarded positional indexing
into the gender distribution at ranks 0 and 1. -/
def genderSection (report : String) (statistics : Stats)
    (processed_images : List (String × String)) : Option String := do
  let report := report ++ "### 2. 性别分布\n\n"
  let gender_data := statistics.gender
  let gen0 ← gender_data.get? 0
  let gen1 ← gender_data.get? 1
  let gender_text :=
    "2025届校园招聘引进人员中，男" ++ toString gen0.count ++ "人，占比" ++
    pctStr gen0.percentageTenths ++ "%；女" ++ toString gen1.count ++
    "人，占比" ++ pctStr gen1.percentageTenths ++ "%。\n\n"
  let report := report ++ gender_text
  return addImage report processed_images "gender" "性别分布图"

/-- Section "### 3. 年龄分布" of the report: unguarded positional indexing
into the birth-cohort distribution at ranks 0, 1, 2. -/
def ageSection (report : String) (statistics : Stats)
    (processed_images : List (String × String)) : Option String := do
  let report := report ++ "### 3. 年龄分布\n\n"
  let age_data := statistics.age_distribution
  let age0 ← age_data.get? 0
  let age1 ← age_data.get? 1
  let age2 ← age_data.get? 2
  let age_text :=
    "2025届校园招聘引进人员中，00后" ++ toString age0.count ++ "人，占比" ++
    pctStr age0.percentageTenths ++ "%；95后" ++ toString age1.count ++
    "人，占比" ++ pctStr age1.percentageTenths ++ "%；90后" ++
    toString age2.count ++ "人，占比" ++ pctStr age2.percentageTenths ++
    "%。\n\n"
  let report := report ++ age_text
  return addImage report processed_images "age_distribution" "年龄分布图"

/-- Section "### 4. 学历分布" of the report: unguarded positional indexing
into the education distribution at ranks 0, 1, 2. -/
def educationSection (report : String) (statistics : Stats)
    (processed_images : List (String × String)) : Option String := do
  let report := report ++ "### 4. 学历分布\n\n"
  let education_data := statistics.education
  let edu0 ← education_data.get? 0
  let edu1 ← education_data.get? 1
  let edu2 ← education_data.get? 2
  let education_text :=
    "2025届校园招聘引进人员中，硕士研究生" ++ toString edu0.count ++
    "人，占比" ++ pctStr edu0.percentageTenths ++ "%；本科" ++
    toString edu1.count ++ "人，占比" ++ pctStr edu1.percentageTenths ++
    "%；博士研究生" ++ toString edu2.count ++ "人，占比" ++
    pctStr edu2.percentageTenths ++ "%。\n\n"
  let report := report ++ education_text
  return addImage report processed_images "education" "学历分布图"

/-- Section "### 5. 院校类别分布" of the report: unguarded positional
indexing into the institution-tier distribution at ranks 0, 1, 2. -/
def institutionSection (report : String) (statistics : Stats)
    (processed_images : List (String × String)) : Option String := do
  let report := report ++ "### 5. 院校类别分布\n\n"
  let institution_data := statistics.institution_category
  let ins0 ← institution_data.get? 0
  let ins1 ← institution_data.get? 1
  let ins2 ← institution_data.get? 2
  let institution_text :=
    "2025届校园招聘引进人员中，211高校" ++ toString ins0.count ++
    "人，占比" ++ pctStr ins0.percentageTenths ++ "%；985高校" ++
    toString ins1.count ++ "人，占比" ++ pctStr ins1.percentageTenths ++
    "%；本分类院校" ++ toString ins2.count ++ "人，占比" ++
    pctStr ins2.percentageTenths ++ "%。\n\n"
  let report := report ++ institution_text
  return addImage report processed_images "institution_category" "院校类别分布图"

/-- The "#### 重点院校统计" block: clauses appended only for positive
tallies, with the trailing 、 replaced by 。 when at least one clause was
appended (the preceding report text never ends in 、, so checking the
whole report's last character is exactly the source's
`report.endswith("、")`). -/
def specialSection (report : String) (statistics : Stats) : String :=
  let special_data := statistics.special_institutions
  let report := report ++ "#### 重点院校统计\n\n"
  let report := report ++ "引进重点院校人员情况如下："
  let report := addSchoolClause special_data report "清华大学" "清华大学"
  let report := addSchoolClause special_data report "北京大学" "北京大学"
  let report := addSchoolClause special_data report "C9联盟" "C9联盟（除清华北大外）"
  let other_schools :=
    ["同济大学", "中南大学", "北京交通大学", "西南交通大学",
     "兰州交通大学", "大连交通大学", "华东交通大学"]
  let report := other_schools.foldl
    (fun rep school => addSchoolClause special_data rep school school) report
  if report.data.getLast? = some '、' then
    String.mk report.data.dropLast ++ "。\n\n"
  else report ++ "\n\n"

/-- Section "### 6. 专业类型分布": the source's `len(major_data) >= k`
ladder, reproduced as a match, degrading to shorter sentences and to a
placeholder on an empty distribution. -/
def majorSection (report : String) (statistics : Stats)
    (processed_images : List (String × String)) : String :=
  let report := report ++ "### 6. 专业类型分布\n\n"
  let major_text :=
    match statistics.major_type with
    | maj0 :: maj1 :: maj2 :: _ =>
        "2025届校园招聘引进人员中，" ++ maj0.name ++ toString maj0.count ++
        "人，占比" ++ pctStr maj0.percentageTenths ++ "%；" ++ maj1.name ++
        toString maj1.count ++ "人，占比" ++ pctStr maj1.percentageTenths ++
        "%；" ++ maj2.name ++ toString maj2.count ++ "人，占比" ++
        pctStr maj2.percentageTenths ++ "%。\n\n"
    | [maj0, maj1] =>
        "2025届校园招聘引进人员中，" ++ maj0.name ++ toString maj0.count ++
        "人，占比" ++ pctStr maj0.percentageTenths ++ "%；" ++ maj1.name ++
        toString maj1.count ++ "人，占比" ++ pctStr maj1.percentageTenths ++
        "%。\n\n"
    | [maj0] =>
        "2025届校园招聘引进人员中，" ++ maj0.name ++ toString maj0.count ++
        "人，占比" ++ pctStr maj0.percentageTenths ++ "%。\n\n"
    | [] => "暂无专业类型数据。\n\n"
  let report := report ++ major_text
  addImage report processed_images "major_type" "专业类型分布图"

/-- Section "### 7. 籍贯分布": the source's `len(province_data) >= k`
ladder, reproduced as a match, degrading like the major-type section. -/
def provinceSection (report : String) (statistics : Stats)
    (processed_images : List (String × String)) : String :=
  let report := report ++ "### 7. 籍贯分布\n\n"
  let province_text :=
    match statistics.province_distribution with
    | pro0 :: pro1 :: pro2 :: _ =>
        "2025届校园招聘引进人员中，" ++ pro0.name ++ toString pro0.count ++
        "人，占比" ++ pctStr pro0.percentageTenths ++ "%；" ++ pro1.name ++
        toString pro1.count ++ "人，占比" ++ pctStr pro1.percentageTenths ++
        "%；" ++ pro2.name ++ toString pro2.count ++ "人，占比" ++
        pctStr pro2.percentageTenths ++ "%。\n\n"
    | [pro0, pro1] =>
        "2025届校园招聘引进人员中，" ++ pro0.name ++ toString pro0.count ++
        "人，占比" ++ pctStr pro0.percentageTenths ++ "%；" ++ pro1.name ++
        toString pro1.count ++ "人，占比" ++ pctStr pro1.percentageTenths ++
        "%。\n\n"
    | [pro0] =>
        "2025届校园招聘引进人员中，" ++ pro0.name ++ toString pro0.count ++
        "人，占比" ++ pctStr pro0.percentageTenths ++ "%。\n\n"
    | [] => "暂无籍贯分布数据。\n\n"
  let report := report ++ province_text
  addImage report processed_images "province_distribution" "籍贯分布图"

/-- Source embedding of `ReportGenerator.generate_markdown_report`, split
into one helper per report section (the string is built in exactly the
source's order).  Python list indexing `data[i]` is `List.get?`; an
out-of-range index raises IndexError, which escapes the method, modelled
as `none`.  The `datetime.now()` reads become the `current_day` and
`now_time` arguments.  The `if "special_institutions" in statistics` test
is always true for a statistics dict built by `generate_statistics`, so it
is modelled as taken. -/
def generate_markdown_report (statistics : Stats)
    (chart_images : List (String × String))
    (current_day now_time : String) : Option String := do
  let processed_images :=
    chart_images.map (fun kv => (kv.1, process_chart_image kv.2))
  let report := "# 2025届校园招聘情况说明\n\n"
  let report := report ++ "## 一、2025届校园招聘整体情况\n\n"
  let total_count := statistics.total_count
  let bilateral_count := statistics.bilateral_count
  let trilateral_count := statistics.trilateral_count
  let report := report ++
    "为深入贯彻人才工作会议精神，推进集团及公司\"十四五\"人力资源战略规划实施，" ++
    "持续提升公司能主动牵引业务，满足公司高质量度的人才储备需求，" ++
    "人力资源部根据公司生产经营和人力资源规划要求，制定2025年招聘计划，" ++
    "并根据计划在国内98所目标院校及海外专场招聘会中全力推进人才引进工作。" ++
    "本届校园招聘，截止" ++ current_day ++ "公司累计签约" ++
    toString total_count ++ "人，其中，" ++ "两方协议" ++
    toString bilateral_count ++ "人，三方协议" ++
    toString trilateral_count ++ "人。\n\n"
  let report := report ++ "## 二、2025届校园招聘引进人员情况\n\n"
  let report ← politicalSection report statistics processed_images
  let report ← genderSection report statistics processed_images
  let report ← ageSection report statistics processed_images
  let report ← educationSection report statistics processed_images
  let report ← institutionSection report statistics processed_images
  let report := specialSection report statistics
  let report := majorSection report statistics processed_images
  let report := provinceSection report statistics processed_images
  let report := report ++ "---\n"
  let report := report ++ "*报告生成时间：" ++ now_time ++ "*"
  return report

end ReportGenerator

/-- A statistics snapshot whose five positionally-indexed dimensions have
the template-expected cardinalities while the major-type and province
distributions are empty. -/
def reportOkStats : Stats :=
  { total_count := 6, bilateral_count := 4, trilateral_count := 2
    political_status :=
      [⟨"共青团员", 3, 500⟩, ⟨"中共党员", 2, 333⟩, ⟨"群众", 1, 167⟩]
    gender := [⟨"男", 4, 667⟩, ⟨"女", 2, 333⟩]
    age_distribution := [⟨"00后", 3, 500⟩, ⟨"95后", 2, 333⟩, ⟨"90后", 1, 167⟩]
    education := [⟨"硕士研究生", 3, 500⟩, ⟨"本科", 2, 333⟩, ⟨"博士研究生", 1, 167⟩]
    institution_category := [⟨"211", 3, 500⟩, ⟨"985", 2, 333⟩, ⟨"其他", 1, 167⟩]
    major_type := []
    province_distribution := []
    special_institutions := [("清华大学", 1), ("北京大学", 0), ("C9联盟", 0)] }

/-- A statistics snapshot identical to `reportOkStats` except that the
gender distribution has a single entry. -/
def reportOneGenderStats : Stats :=
  { reportOkStats with gender := [⟨"男", 6, 1000⟩] }

namespace Spec

/-- Spec-side restatement of the institution-tier rule (claim C1): overseas
marker first with its QS sub-classification, else the first element of the
ordered domestic list occurring as a substring of the tag, else 其他. -/
def classifyTier (tag : String) : String :=
  if strContains tag "海外院校" then
    if strContains tag "QS1-50" then "QS1-50"
    else if strContains tag "QS100" then "QS100"
    else "其他海外院校"
  else
    (DataProcessor.domesticCategories.find?
        (fun c => strContains tag c)).getD "其他"

/-- Spec-side leading-year extraction (claim C4): the segment before the
first '-' if present, else the segment before the first '/' if present,
else the first 4 characters. -/
def leadingYearString (s : String) : String :=
  if s.data.contains '-' then beforeFirst '-' s
  else if s.data.contains '/' then beforeFirst '/' s
  else String.mk (s.data.take 4)

/-- Spec-side year-to-cohort banding (claim C4). -/
def cohortOfYear (year : Int) : Option String :=
  if 2005 ≤ year then some "05后"
  else if 2000 ≤ year then some "00后"
  else if 1995 ≤ year then some "95后"
  else if 1990 ≤ year then some "90后"
  else none

/-- Spec-side restatement of the birth-cohort rule (claim C4):
empty/missing input or a year that fails to parse yields null. -/
def birthCohort (birth_date : Option String) : Option String :=
  match birth_date with
  | none => none
  | some s =>
      if s = "" then none
      else
        match pyInt (leadingYearString s) with
        | none => none
        | some year => cohortOfYear year

/-- Spec-side restatement of the province rule (claim C5): exact alias
lookup, else prefix-before-'-' lookup with raw-prefix fallback, else the
first alias key occurring as a substring in table insertion order, else
the raw string; empty/missing input maps to 未知. -/
def provinceOf (location : Option String) : String :=
  match location with
  | none => "未知"
  | some s =>
      if s = "" then "未知"
      else
        match DataProcessor.province_map.lookup s with
        | some p => p
        | none =>
            if s.data.contains '-' then
              let pre := beforeFirst '-' s
              (DataProcessor.province_map.lookup pre).getD pre
            else
              match DataProcessor.province_map.find?
                  (fun kv => strContains s kv.1) with
              | some kv => kv.2
              | none => s

end Spec

/-- One dimension of a statistics snapshot is well-formed with respect to
its source column: entry counts plus the null cells sum to the column
length, and every entry's name is an actual non-null cell value. -/
def DimInvariant (dist : List Entry) (vals : List (Option String)) : Prop :=
  ((dist.map (fun e => e.count)).sum + vals.countP (fun v => v.isNone)
      = vals.length)
  ∧ ∀ e ∈ dist, some e.name ∈ vals

lemma classifyLoop_eq_find (tag : String) (cs : List String) :
    DataProcessor.classifyLoop tag cs
      = (cs.find? (fun c => strContains tag c)).getD "其他" := by
  induction cs with
  | nil => rfl
  | cons c rest ih =>
      by_cases h : strContains tag c = true
      · simp [DataProcessor.classifyLoop, List.find?, h]
      · simp only [Bool.not_eq_true] at h
        simp [DataProcessor.classifyLoop, List.find?, h, ih]

/-- Claim C1: classify_institution applies strict first-match priority —
an overseas-marked tag sub-classifies to QS1-50, then QS100, then
其他海外院校 regardless of any domestic marker; otherwise the first
occurring domestic category in the fixed order wins, with 其他 as the
fallthrough; in particular an overseas-marked tag never classifies as
C9联盟. -/
theorem claim_C1_classify_institution_priority :
    (∀ tag, DataProcessor.classify_institution tag = Spec.classifyTier tag)
    ∧ (∀ tag, strContains tag "海外院校" = true →
        (DataProcessor.classify_institution tag = "QS1-50"
          ∨ DataProcessor.classify_institution tag = "QS100"
          ∨ DataProcessor.classify_institution tag = "其他海外院校")
        ∧ DataProcessor.classify_institution tag ≠ "C9联盟") := by
  constructor
  · intro tag
    simp only [DataProcessor.classify_institution, Spec.classifyTier,
      classifyLoop_eq_find]
  · intro tag h
    simp only [DataProcessor.classify_institution, h, if_true]
    by_cases h1 : strContains tag "QS1-50" = true
    · simp [h1]
    · simp only [Bool.not_eq_true] at h1
      by_cases h2 : strContains tag "QS100" = true
      · simp [h1, h2]
      · simp only [Bool.not_eq_true] at h2
        simp [h1, h2]

/-- Witness for claim C1 at the mixed tag 海外院校,C9联盟. -/
theorem claim_C1_witness :
    (DataProcessor.classify_institution "海外院校,C9联盟" = "QS1-50"
      ∨ DataProcessor.classify_institution "海外院校,C9联盟" = "QS100"
      ∨ DataProcessor.classify_institution "海外院校,C9联盟" = "其他海外院校")
    ∧ DataProcessor.classify_institution "海外院校,C9联盟" ≠ "C9联盟" :=
  claim_C1_classify_institution_priority.2 "海外院校,C9联盟" (by decide)

/-- Claim C4: calculate_generation is total, agrees everywhere with the
spec's description (leading-year extraction by '-' or '/' or first four
characters, banded at 2005/2000/1995/1990, null below 1990 and on any
parse failure), and on the two quoted inputs returns none and 00后. -/
theorem claim_C4_calculate_generation :
    (∀ bd, DataProcessor.calculate_generation bd = Spec.birthCohort bd)
    ∧ DataProcessor.calculate_generation (some "1988-03-01") = none
    ∧ DataProcessor.calculate_generation (some "2001/07/15") = some "00后"
    ∧ DataProcessor.calculate_generation (some "") = none
    ∧ DataProcessor.calculate_generation none = none := by
  refine ⟨?_, by decide, by decide, by decide, rfl⟩
  intro bd
  cases bd with
  | none => rfl
  | some s => rfl

/-- Claim C5: extract_province agrees everywhere with the spec's rule
(exact alias hit, then prefix-before-'-' lookup with raw-prefix fallback,
then first substring hit in table order, then the raw string; empty or
missing input gives 未知), and 湖南长沙 maps to 湖南. -/
theorem claim_C5_extract_province :
    (∀ loc, DataProcessor.extract_province loc = Spec.provinceOf loc)
    ∧ DataProcessor.extract_province (some "湖南长沙") = "湖南"
    ∧ DataProcessor.extract_province (some "") = "未知"
    ∧ DataProcessor.extract_province none = "未知" := by
  refine ⟨?_, by decide, by decide, rfl⟩
  intro loc
  cases loc with
  | none => rfl
  | some s => rfl

/-- Claim C6: enhance_data keeps every original column value, record count
and order (so null-derived records are retained, and the input list is
untouched as a value), and adds exactly the four derived columns, each
computed by its classifier. -/
theorem claim_C6_enhance_data_frame (df : List Record) :
    ((DataProcessor.enhance_data df).map (fun e => e.base) = df)
    ∧ (DataProcessor.enhance_data df).length = df.length
    ∧ ((DataProcessor.enhance_data df).map (fun e => e.isOverseas)
        = df.map (fun r =>
            if strContains (r.schoolCategory.getD "") "海外院校" then "是"
            else "否"))
    ∧ ((DataProcessor.enhance_data df).map (fun e => e.institutionTier)
        = df.map (fun r =>
            DataProcessor.classify_institution (r.schoolCategory.getD "")))
    ∧ ((DataProcessor.enhance_data df).map (fun e => e.originProvince)
        = df.map (fun r => DataProcessor.extract_province r.origin))
    ∧ ((DataProcessor.enhance_data df).map (fun e => e.generation)
        = df.map (fun r => DataProcessor.calculate_generation r.birthDate)) := by
  refine ⟨?_, ?_, ?_, ?_, ?_, ?_⟩
  · simp only [DataProcessor.enhance_data, List.map_map]
    exact List.map_id df
  · simp [DataProcessor.enhance_data]
  · simp only [DataProcessor.enhance_data, List.map_map]
    rfl
  · simp only [DataProcessor.enhance_data, List.map_map]
    rfl
  · simp only [DataProcessor.enhance_data, List.map_map]
    rfl
  · simp only [DataProcessor.enhance_data, List.map_map]
    rfl

lemma addCount_sum (acc : List (String × Nat)) (v : String) :
    ((addCount acc v).map (fun kv => kv.2)).sum
      = ((acc.map (fun kv => kv.2)).sum) + 1 := by
  induction acc with
  | nil => rfl
  | cons kv rest ih =>
      obtain ⟨k, n⟩ := kv
      by_cases h : k = v
      · simp only [addCount, h, eq_self_iff_true, if_true, List.map_cons,
          List.sum_cons]
        omega
      · simp only [addCount, h, if_false, List.map_cons, List.sum_cons, ih]
        omega

lemma foldl_addCount_sum (xs : List String) :
    ∀ acc : List (String × Nat),
      ((xs.foldl addCount acc).map (fun kv => kv.2)).sum
        = ((acc.map (fun kv => kv.2)).sum) + xs.length := by
  induction xs with
  | nil => intro acc; simp
  | cons x xs ih =>
      intro acc
      simp only [List.foldl_cons, ih, addCount_sum, List.length_cons]
      omega

lemma tally_sum (xs : List String) :
    ((tally xs).map (fun kv => kv.2)).sum = xs.length := by
  simpa [tally] using foldl_addCount_sum xs []

lemma insertByCount_perm (x : String × Nat) (l : List (String × Nat)) :
    (insertByCount x l).Perm (x :: l) := by
  induction l with
  | nil => simp [insertByCount]
  | cons y ys ih =>
      by_cases h : x.2 ≥ y.2
      · simp [insertByCount, h]
      · simp only [insertByCount, h, if_false]
        exact (ih.cons y).trans (List.Perm.swap x y ys)

lemma sortByCountDesc_perm (l : List (String × Nat)) :
    (sortByCountDesc l).Perm l := by
  induction l with
  | nil => simp [sortByCountDesc]
  | cons x xs ih =>
      exact (insertByCount_perm x (sortByCountDesc xs)).trans (ih.cons x)

lemma valueCounts_sum (vals : List (Option String)) :
    ((valueCounts vals).map (fun kv => kv.2)).sum
      = (vals.filterMap id).length := by
  have hp :=
    ((sortByCountDesc_perm (tally (vals.filterMap id))).map
      (fun kv => kv.2)).sum_eq
  simpa [valueCounts, tally_sum] using hp

lemma filterMap_id_length (vals : List (Option String)) :
    (vals.filterMap id).length + vals.countP (fun v => v.isNone)
      = vals.length := by
  induction vals with
  | nil => rfl
  | cons v vs ih =>
      cases v with
      | none =>
          simp only [List.filterMap_cons, List.countP_cons, List.length_cons,
            id_eq, Option.isNone_none, if_true]
          omega
      | some b =>
          simp only [List.filterMap_cons, List.countP_cons, List.length_cons,
            id_eq, Option.isNone_some, if_false, Bool.false_eq_true]
          omega

lemma addCount_mem (acc : List (String × Nat)) (v : String) :
    ∀ kv ∈ addCount acc v, kv.1 ∈ acc.map (fun x => x.1) ∨ kv.1 = v := by
  induction acc with
  | nil =>
      intro kv hkv
      simp only [addCount, List.mem_singleton] at hkv
      simp [hkv]
  | cons a rest ih =>
      obtain ⟨k, n⟩ := a
      intro kv hkv
      by_cases h : k = v
      · simp only [addCount, h, if_true, List.mem_cons] at hkv
        rcases hkv with h1 | h1
        · right; simp [h1]
        · left; simp only [List.map_cons, List.mem_cons]
          right
          exact List.mem_map_of_mem (fun x => x.1) h1
      · simp only [addCount, h, if_false, List.mem_cons] at hkv
        rcases hkv with h1 | h1
        · left; simp [h1]
        · rcases ih kv h1 with h2 | h2
          · left; simp only [List.map_cons, List.mem_cons]; right; exact h2
          · right; exact h2

lemma foldl_addCount_mem (xs : List String) :
    ∀ (acc : List (String × Nat)) (kv : String × Nat),
      kv ∈ xs.foldl addCount acc →
        kv.1 ∈ acc.map (fun x => x.1) ∨ kv.1 ∈ xs := by
  induction xs with
  | nil => intro acc kv h; simp only [List.foldl_nil] at h; left
           exact List.mem_map_of_mem (fun x => x.1) h
  | cons x xs ih =>
      intro acc kv h
      simp only [List.foldl_cons] at h
      rcases ih (addCount acc x) kv h with h1 | h1
      · rcases List.mem_map.1 h1 with ⟨a, ha, hak⟩
        rcases addCount_mem acc x a ha with h2 | h2
        · left; rw [← hak]; exact h2
        · right; simp [← hak, h2]
      · right; simp [h1]

lemma tally_mem (xs : List String) (kv : String × Nat) :
    kv ∈ tally xs → kv.1 ∈ xs := by
  intro h
  rcases foldl_addCount_mem xs [] kv h with h1 | h1
  · simp at h1
  · exact h1

lemma valueCounts_mem (vals : List (Option String)) (kv : String × Nat) :
    kv ∈ valueCounts vals → some kv.1 ∈ vals := by
  intro h
  have h1 : kv ∈ tally (vals.filterMap id) :=
    (sortByCountDesc_perm (tally (vals.filterMap id))).mem_iff.1 h
  have h2 := tally_mem _ kv h1
  rcases List.mem_filterMap.1 h2 with ⟨a, ha, hak⟩
  cases a with
  | none => simp at hak
  | some b =>
      simp only [id_eq] at hak
      rw [hak] at ha
      exact ha

lemma mkDistribution_invariant (t : Nat) (vals : List (Option String)) :
    DimInvariant (mkDistribution t vals) vals := by
  constructor
  · have hmap : (mkDistribution t vals).map (fun e => e.count)
        = (valueCounts vals).map (fun kv => kv.2) := by
      simp only [mkDistribution, List.map_map]
      rfl
    rw [hmap, valueCounts_sum, filterMap_id_length]
  · intro e he
    rcases List.mem_map.1 he with ⟨kv, hkv, hke⟩
    have := valueCounts_mem vals kv hkv
    rw [← hke]
    exact this

/-- Claim C2: for every enriched dataset and each of the seven statistic
dimensions, the entry counts of the Distribution plus the dimension's null
cells sum to the total record count, and null cells contribute no entry
(every entry's name is an actual non-null cell value). -/
theorem claim_C2_distribution_counts (df : List Enriched) :
    DimInvariant (DataProcessor.generate_statistics df).political_status
      (df.map (fun r => r.base.politicalStatus))
    ∧ DimInvariant (DataProcessor.generate_statistics df).gender
      (df.map (fun r => r.base.gender))
    ∧ DimInvariant (DataProcessor.generate_statistics df).age_distribution
      (df.map (fun r => r.generation))
    ∧ DimInvariant (DataProcessor.generate_statistics df).education
      (df.map (fun r => r.base.education))
    ∧ DimInvariant (DataProcessor.generate_statistics df).institution_category
      (df.map (fun r => some r.institutionTier))
    ∧ DimInvariant (DataProcessor.generate_statistics df).major_type
      (df.map (fun r => r.base.majorType))
    ∧ DimInvariant (DataProcessor.generate_statistics df).province_distribution
      (df.map (fun r => some r.originProvince)) :=
  ⟨mkDistribution_invariant _ _, mkDistribution_invariant _ _,
   mkDistribution_invariant _ _, mkDistribution_invariant _ _,
   mkDistribution_invariant _ _, mkDistribution_invariant _ _,
   mkDistribution_invariant _ _⟩

/-- Witness for claim C2 on the enriched three-record scenario roster:
the gender dimension's count equation, and the membership hypothesis of
the no-null-entry clause discharged at the concrete entry 男. -/
theorem claim_C2_witness :
    (((DataProcessor.generate_statistics
          (DataProcessor.enhance_data scenarioRoster)).gender.map
        (fun e => e.count)).sum
      + ((DataProcessor.enhance_data scenarioRoster).map
          (fun r => r.base.gender)).countP (fun v => v.isNone)
      = ((DataProcessor.enhance_data scenarioRoster).map
          (fun r => r.base.gender)).length)
    ∧ some "男" ∈ (DataProcessor.enhance_data scenarioRoster).map
        (fun r => r.base.gender) :=
  ⟨(claim_C2_distribution_counts (DataProcessor.enhance_data scenarioRoster)).2.1.1,
   (claim_C2_distribution_counts (DataProcessor.enhance_data scenarioRoster)).2.1.2
     { name := "男", count := 2, percentageTenths := 667 } (by decide)⟩

/-- Claim C3: on a zero-record enriched dataset, generate_statistics
returns (no exception, no division by zero) zero totals, empty
Distribution lists for all seven dimensions, and an all-zero
SpecialInstitutionTally including the derived C9联盟 entry. -/
theorem claim_C3_zero_record_statistics :
    DataProcessor.generate_statistics ([] : List Enriched)
      = { total_count := 0, bilateral_count := 0, trilateral_count := 0,
          political_status := [], gender := [], age_distribution := [],
          education := [], institution_category := [], major_type := [],
          province_distribution := [],
          special_institutions :=
            [("清华大学", 0), ("北京大学", 0), ("同济大学", 0), ("中南大学", 0),
             ("北京交通大学", 0), ("西南交通大学", 0), ("兰州交通大学", 0),
             ("大连交通大学", 0), ("华东交通大学", 0), ("C9联盟", 0)] } := by
  decide

/-- Claim C8: on the enriched three-record scenario roster (genders
男,女,男; political statuses 中共党员,共青团员,群众; agreement types
已签约(两方),已签约(两方),已签约(三方)), generate_statistics returns
total 3, bilateral 2, trilateral 1 and the gender Distribution
男 2 at 66.7% then 女 1 at 33.3% (percentages stored as tenths). -/
theorem claim_C8_scenario :
    (DataProcessor.generate_statistics
        (DataProcessor.enhance_data scenarioRoster)).total_count = 3
    ∧ (DataProcessor.generate_statistics
        (DataProcessor.enhance_data scenarioRoster)).bilateral_count = 2
    ∧ (DataProcessor.generate_statistics
        (DataProcessor.enhance_data scenarioRoster)).trilateral_count = 1
    ∧ (DataProcessor.generate_statistics
        (DataProcessor.enhance_data scenarioRoster)).gender
      = [{ name := "男", count := 2, percentageTenths := 667 },
         { name := "女", count := 1, percentageTenths := 333 }] := by
  decide

lemma lookup_specialSchools_tsinghua (f : String → Int) :
    ((DataProcessor.specialSchools.map (fun sch => (sch, f sch))).lookup
        "清华大学") = some (f "清华大学") := by
  simp [DataProcessor.specialSchools, List.lookup]

lemma lookup_specialSchools_peking (f : String → Int) :
    ((DataProcessor.specialSchools.map (fun sch => (sch, f sch))).lookup
        "北京大学") = some (f "北京大学") := by
  have h : ("北京大学" == "清华大学") = false := by decide
  simp [DataProcessor.specialSchools, List.lookup, h]

/-- Claim C9: the derived C9联盟 tally entry (the last entry of the
special-institution dict) equals the C9-tier count minus the exact-name
counts of 清华大学 and 北京大学, and it can be strictly negative: one
record named 清华大学 with an overseas-marked category tag yields -1. -/
theorem claim_C9_c9_entry_can_go_negative :
    (∀ df : List Enriched,
      ((DataProcessor.generate_statistics df).special_institutions).getLast?
        = some ("C9联盟",
            ((df.filter (fun r => r.institutionTier == "C9联盟")).length : Int)
            - ((df.filter (fun r => r.base.school == some "清华大学")).length : Int)
            - ((df.filter (fun r => r.base.school == some "北京大学")).length : Int)))
    ∧ ((DataProcessor.generate_statistics
          (DataProcessor.enhance_data [tsinghuaOverseasRecord])).special_institutions).getLast?
        = some ("C9联盟", -1)
    ∧ (-1 : Int) < 0 := by
  refine ⟨?_, by decide, by decide⟩
  intro df
  simp only [DataProcessor.generate_statistics,
    DataProcessor.calculate_special_institutions, List.getLast?_concat,
    lookup_specialSchools_tsinghua, lookup_specialSchools_peking,
    Option.getD_some]

/-- Claim C10: the bilateral and trilateral tallies are independent
substring-containment counts over the hire-agreement column: a record
containing both markers is counted twice (so the two tallies can exceed
the total), and a record containing neither is counted in neither. -/
theorem claim_C10_bilateral_trilateral_not_partition :
    (∀ df : List Enriched,
      (DataProcessor.generate_statistics df).bilateral_count
          = df.countP (fun r => optContains r.base.hireStatus "两方")
        ∧ (DataProcessor.generate_statistics df).trilateral_count
          = df.countP (fun r => optContains r.base.hireStatus "三方"))
    ∧ ((DataProcessor.generate_statistics
          (DataProcessor.enhance_data bothMarkersRoster)).total_count
        < (DataProcessor.generate_statistics
            (DataProcessor.enhance_data bothMarkersRoster)).bilateral_count
          + (DataProcessor.generate_statistics
              (DataProcessor.enhance_data bothMarkersRoster)).trilateral_count)
    ∧ (DataProcessor.generate_statistics
        (DataProcessor.enhance_data neitherMarkerRoster)).bilateral_count = 0
    ∧ (DataProcessor.generate_statistics
        (DataProcessor.enhance_data neitherMarkerRoster)).trilateral_count = 0
    ∧ (DataProcessor.generate_statistics
        (DataProcessor.enhance_data neitherMarkerRoster)).total_count = 1 := by
  refine ⟨?_, by decide, by decide, by decide, by decide⟩
  intro df
  constructor <;>
    simp [DataProcessor.generate_statistics, List.countP_eq_length_filter]

lemma optionBind_isSome {α β : Type} {x : Option α} {f : α → Option β}
    (hx : x.isSome = true) (hf : ∀ a, (f a).isSome = true) :
    (x >>= f).isSome = true := by
  cases x with
  | none => simp at hx
  | some a => simpa using hf a

lemma politicalSection_isSome (report : String) (statistics : Stats)
    (imgs : List (String × String))
    (h : 3 ≤ statistics.political_status.length) :
    (ReportGenerator.politicalSection report statistics imgs).isSome
      = true := by
  simp only [ReportGenerator.politicalSection]
  refine optionBind_isSome ?_ (fun p0 => ?_)
  · rw [List.get?_eq_get (by omega)]; rfl
  refine optionBind_isSome ?_ (fun p1 => ?_)
  · rw [List.get?_eq_get (by omega)]; rfl
  refine optionBind_isSome ?_ (fun p2 => ?_)
  · rw [List.get?_eq_get (by omega)]; rfl
  rfl

lemma genderSection_isSome (report : String) (statistics : Stats)
    (imgs : List (String × String))
    (h : 2 ≤ statistics.gender.length) :
    (ReportGenerator.genderSection report statistics imgs).isSome = true := by
  simp only [ReportGenerator.genderSection]
  refine optionBind_isSome ?_ (fun g0 => ?_)
  · rw [List.get?_eq_get (by omega)]; rfl
  refine optionBind_isSome ?_ (fun g1 => ?_)
  · rw [List.get?_eq_get (by omega)]; rfl
  rfl

lemma ageSection_isSome (report : String) (statistics : Stats)
    (imgs : List (String × String))
    (h : 3 ≤ statistics.age_distribution.length) :
    (ReportGenerator.ageSection report statistics imgs).isSome = true := by
  simp only [ReportGenerator.ageSection]
  refine optionBind_isSome ?_ (fun a0 => ?_)
  · rw [List.get?_eq_get (by omega)]; rfl
  refine optionBind_isSome ?_ (fun a1 => ?_)
  · rw [List.get?_eq_get (by omega)]; rfl
  refine optionBind_isSome ?_ (fun a2 => ?_)
  · rw [List.get?_eq_get (by omega)]; rfl
  rfl

lemma educationSection_isSome (report : String) (statistics : Stats)
    (imgs : List (String × String))
    (h : 3 ≤ statistics.education.length) :
    (ReportGenerator.educationSection report statistics imgs).isSome
      = true := by
  simp only [ReportGenerator.educationSection]
  refine optionBind_isSome ?_ (fun e0 => ?_)
  · rw [List.get?_eq_get (by omega)]; rfl
  refine optionBind_isSome ?_ (fun e1 => ?_)
  · rw [List.get?_eq_get (by omega)]; rfl
  refine optionBind_isSome ?_ (fun e2 => ?_)
  · rw [List.get?_eq_get (by omega)]; rfl
  rfl

lemma institutionSection_isSome (report : String) (statistics : Stats)
    (imgs : List (String × String))
    (h : 3 ≤ statistics.institution_category.length) :
    (ReportGenerator.institutionSection report statistics imgs).isSome
      = true := by
  simp only [ReportGenerator.institutionSection]
  refine optionBind_isSome ?_ (fun i0 => ?_)
  · rw [List.get?_eq_get (by omega)]; rfl
  refine optionBind_isSome ?_ (fun i1 => ?_)
  · rw [List.get?_eq_get (by omega)]; rfl
  refine optionBind_isSome ?_ (fun i2 => ?_)
  · rw [List.get?_eq_get (by omega)]; rfl
  rfl

/-- Counterexample to claim C7: a snapshot whose gender Distribution has a
single entry (all other template-indexed dimensions fully populated) does
not yield a report — the unguarded positional indexing in the gender
section aborts the composer (Python: IndexError), modelled as `none`. -/
theorem claim_C7_counterexample :
    ReportGenerator.generate_markdown_report reportOneGenderStats []
        "2025-01-01" "2025-01-01 00:00:00" = none := by
  decide

/-- Amended claim C7: the composer degrades gracefully only in the
major-type and province sections (shorter sentences or a placeholder at
any cardinality); the political-status, gender, age, education and
institution-tier sections index positions up to 2 (up to 1 for gender)
unguarded, and whenever those five distributions have at least 3, 2, 3, 3
and 3 entries respectively, the composer yields a report regardless of the
major-type and province cardinalities. -/
theorem claim_C7_amended_template_guards (statistics : Stats)
    (chart_images : List (String × String)) (current_day now_time : String)
    (hpol : 3 ≤ statistics.political_status.length)
    (hgen : 2 ≤ statistics.gender.length)
    (hage : 3 ≤ statistics.age_distribution.length)
    (hedu : 3 ≤ statistics.education.length)
    (hins : 3 ≤ statistics.institution_category.length) :
    (ReportGenerator.generate_markdown_report statistics chart_images
        current_day now_time).isSome = true := by
  simp only [ReportGenerator.generate_markdown_report]
  refine optionBind_isSome
    (politicalSection_isSome _ _ _ hpol) (fun r1 => ?_)
  refine optionBind_isSome (genderSection_isSome _ _ _ hgen) (fun r2 => ?_)
  refine optionBind_isSome (ageSection_isSome _ _ _ hage) (fun r3 => ?_)
  refine optionBind_isSome (educationSection_isSome _ _ _ hedu) (fun r4 => ?_)
  refine optionBind_isSome
    (institutionSection_isSome _ _ _ hins) (fun r5 => ?_)
  rfl

/-- Witness for the amended claim C7, at a snapshot with the five expected
cardinalities but empty major-type and province distributions (the two
gracefully-degrading sections). -/
theorem claim_C7_amended_witness :
    (ReportGenerator.generate_markdown_report reportOkStats []
        "2025-01-01" "2025-01-01 00:00:00").isSome = true :=
  claim_C7_amended_template_guards reportOkStats [] "2025-01-01"
    "2025-01-01 00:00:00" (by decide) (by decide) (by decide) (by decide)
    (by decide)
